import Mathlib

/-!
Shallow embedding of the bag-of-tasks crawler (coordinator.py, crawler.py,
proxy_manager.py, db_manager.py, config.py) and proofs about it.

Conventions of the embedding:
* Python dicts whose keys the program inspects are flattened into records of
  `Option`-typed fields; an absent key is `none`.
* Timestamps (`datetime.now()`) are natural numbers counting seconds.  The
  comparison `now - t < d` on `Nat` agrees with the signed Python comparison
  for every `now`, `t` whenever `0 < d` (both sides say "skip" when `now < t`).
* Mutable state is passed explicitly; functions that publish messages or touch
  the database instead return the list of effects they would perform.
-/

namespace BotC

/-! ## Constants from config.py -/

/-- config.py: MAX_RETRIES = 3 (retry counts travel in JSON, hence `Int`). -/
def MAX_RETRIES : Int := 3

/-- config.py: IP_BLOCK_DURATION = 3600 seconds. -/
def IP_BLOCK_DURATION : Nat := 3600

/-- config.py: MIN_REQUEST_INTERVAL = 2 seconds. -/
def MIN_REQUEST_INTERVAL : Nat := 2

/-- config.py: ERROR_RATE_LIMIT. -/
def ERROR_RATE_LIMIT : String := "Rate limit exceeded"

/-- config.py: ERROR_IP_BLOCKED. -/
def ERROR_IP_BLOCKED : String := "IP blocked by service"

/-! ## A tiny string-keyed map (Python `Dict[str, datetime]`) -/

/-- Association list standing for a Python dict with string keys. -/
def SMap := List (String × Nat)

instance : DecidableEq SMap := by unfold SMap; infer_instance

instance : Repr SMap := by unfold SMap; infer_instance

instance {ε α : Type} [DecidableEq ε] [DecidableEq α] :
    DecidableEq (Except ε α) := fun x y =>
  match x, y with
  | Except.ok a, Except.ok b =>
      if h : a = b then isTrue (by rw [h]) else isFalse (by simp [h])
  | Except.error a, Except.error b =>
      if h : a = b then isTrue (by rw [h]) else isFalse (by simp [h])
  | Except.ok _, Except.error _ => isFalse (by simp)
  | Except.error _, Except.ok _ => isFalse (by simp)

/-- Dict lookup: `d[k]` / `k in d`. -/
def SMap.find (m : SMap) (k : String) : Option Nat :=
  match m with
  | [] => none
  | (k', v) :: rest => if k' = k then some v else SMap.find rest k

/-- Dict update `d[k] = v` (replaces any existing binding). -/
def SMap.insert (m : SMap) (k : String) (v : Nat) : SMap :=
  match m with
  | [] => [(k, v)]
  | (k', v') :: rest =>
      if k' = k then (k, v) :: rest else (k', v') :: SMap.insert rest k v

/-- Dict deletion `del d[k]`. -/
def SMap.erase (m : SMap) (k : String) : SMap :=
  match m with
  | [] => []
  | (k', v') :: rest =>
      if k' = k then rest else (k', v') :: SMap.erase rest k

/-! ## proxy_manager.py -/

/-- proxy_manager.py: `ProxyInfo` named tuple. -/
structure ProxyInfo where
  host : String
  port : String
  username : Option String := none
  password : Option String := none
deriving DecidableEq, Repr

/-- The mutable fields of the `ProxyManager` singleton. -/
structure PMState where
  blocked_ips : SMap := []
  ip_last_used : SMap := []
  proxy_list : List ProxyInfo := []
deriving DecidableEq, Repr

/-- proxy_manager.py lines 69-73: `_format_proxy_url`.  The Python guard is
`if proxy.username and proxy.password`; nonempty strings model truthy values. -/
def format_proxy_url (p : ProxyInfo) : String :=
  match p.username, p.password with
  | some u, some pw =>
      if u ≠ "" ∧ pw ≠ "" then
        "http://" ++ u ++ ":" ++ pw ++ "@" ++ p.host ++ ":" ++ p.port
      else "http://" ++ p.host ++ ":" ++ p.port
  | _, _ => "http://" ++ p.host ++ ":" ++ p.port

/-- Python `s.split(sep)` for a single-character separator, on characters. -/
def splitOnChar (sep : Char) : List Char → List (List Char)
  | [] => [[]]
  | c :: rest =>
      let r := splitOnChar sep rest
      if c = sep then [] :: r
      else
        match r with
        | [] => [[c]]
        | h :: t => (c :: h) :: t

/-- Python `s.split(sep)` for a single-character separator. -/
def pySplit (s : String) (sep : Char) : List String :=
  (splitOnChar sep s.toList).map (fun cs => String.mk cs)

/-- proxy_manager.py lines 104/113: `proxy_url.split('@')[-1].split(':')[0]`,
the key under which `mark_blocked` and `release_proxy` track an address. -/
def extract_ip (proxy_url : String) : String :=
  (pySplit ((pySplit proxy_url '@').getLastD "") ':').headD ""

/-- The two checks of `get_proxy` for one proxy (proxy_manager.py lines
81-92): blocked-IP check (deleting an expired block entry even when the
cooldown check then skips the proxy) and cooldown check.  Returns whether the
proxy passed, together with the possibly mutated maps.  The reserving write
of line 94 is deliberately NOT part of this step — in the source it is a
separate statement executed after the checks. -/
def check_proxy (current_time : Nat) (st : PMState) (p : ProxyInfo) :
    Bool × PMState :=
  let ip := p.host
  let checkCooldown : PMState → Bool × PMState := fun st1 =>
    match st1.ip_last_used.find ip with
    | some last =>
        if current_time - last < MIN_REQUEST_INTERVAL then (false, st1)
        else (true, st1)
    | none => (true, st1)
  match st.blocked_ips.find ip with
  | some t0 =>
      if current_time - t0 < IP_BLOCK_DURATION then (false, st)
      else checkCooldown { st with blocked_ips := st.blocked_ips.erase ip }
  | none => checkCooldown st

/-- proxy_manager.py lines 94-96: record the proxy's last-used time and
format its URL. -/
def reserve_proxy (current_time : Nat) (st : PMState) (p : ProxyInfo) :
    String × PMState :=
  (format_proxy_url p,
    { st with ip_last_used := st.ip_last_used.insert p.host current_time })

/-- One step of the scan in `get_proxy` (lines 79-96) for a single proxy:
either skip it (`none`, with the possibly mutated maps) or reserve and
return it. -/
def scan_one (current_time : Nat) (st : PMState) (p : ProxyInfo) :
    Option String × PMState :=
  match check_proxy current_time st p with
  | (true, st1) =>
      let r := reserve_proxy current_time st1 p
      (some r.1, r.2)
  | (false, st1) => (none, st1)

/-- proxy_manager.py lines 75-98: `get_proxy` scans `proxy_list` in load
order and returns the first proxy that is neither blocked nor inside its
cooldown window, recording its last-used time before returning. -/
def get_proxy (st : PMState) (current_time : Nat) : Option String × PMState :=
  go st.proxy_list st
where
  go : List ProxyInfo → PMState → Option String × PMState
    | [], st1 => (none, st1)
    | p :: rest, st1 =>
        match scan_one current_time st1 p with
        | (some url, st2) => (some url, st2)
        | (none, st2) => go rest st2

/-- proxy_manager.py lines 100-108: `mark_blocked`. -/
def mark_blocked (st : PMState) (proxy_url : String) (now : Nat) : PMState :=
  { st with blocked_ips := st.blocked_ips.insert (extract_ip proxy_url) now }

/-- proxy_manager.py lines 110-117: `release_proxy`. -/
def release_proxy (st : PMState) (proxy_url : String) : PMState :=
  { st with ip_last_used := st.ip_last_used.erase (extract_ip proxy_url) }

/-! ## crawler.py: parsing

HTML pages are modelled by what the two parsers extract from them: a
Google Scholar page is a list of articles, each with the optional text of its
title element and of its year element; a DBLP page is a list of articles,
each with the optional text of its title element and the list of descendant
strings scanned for the year pattern. -/

/-- A publication dict `{'title': ..., 'year': ..., 'source': ...}`. -/
structure Pub where
  title : String
  year : Option Nat := none
  source : String
deriving DecidableEq, Repr

/-- One `tr.gsc_a_tr` row of a Google Scholar page as the parser sees it. -/
structure GSArticle where
  title : Option String := none
  year_text : Option String := none
deriving DecidableEq, Repr

/-- One `.entry.article` element of a DBLP page as the parser sees it. -/
structure DBLPArticle where
  title : Option String := none
  descendants : List String := []
deriving DecidableEq, Repr

/-- ASCII decimal digit (the `\d` / `str.isdigit` character class). -/
def isDig (c : Char) : Bool := 48 ≤ c.toNat && c.toNat ≤ 57

/-- Numeric value of a digit character. -/
def digitVal (c : Char) : Nat := c.toNat - 48

/-- Python `str.isdigit()`: nonempty and all digits. -/
def allDigits (s : String) : Bool := !s.toList.isEmpty && s.toList.all isDig

/-- Drop leading whitespace. -/
def dropLeadingWS : List Char → List Char
  | [] => []
  | c :: rest => if c.isWhitespace then dropLeadingWS rest else c :: rest

/-- Python `str.strip()`: remove leading and trailing whitespace. -/
def pyStrip (s : String) : String :=
  String.mk (dropLeadingWS ((dropLeadingWS s.toList).reverse)).reverse

/-- Python `int(...)` on a digit string. -/
def strToNat (s : String) : Nat :=
  s.toList.foldl (fun a c => a * 10 + digitVal c) 0

/-- Word character for the regex `\b` boundary: `[A-Za-z0-9_]`. -/
def isWordChar (c : Char) : Bool := c.isAlphanum || c = '_'

/-- A match of config.py's pattern `\b(19|20)\d{2}\b` anchored at the head of
the character list, `prev` being the character just before it (if any). -/
def yearHere (prev : Option Char) : List Char → Option Nat
  | c0 :: c1 :: c2 :: c3 :: rest =>
      let prevOk := match prev with
        | none => true
        | some c => !isWordChar c
      let afterOk := match rest with
        | [] => true
        | c :: _ => !isWordChar c
      if prevOk && ((c0 = '1' && c1 = '9') || (c0 = '2' && c1 = '0')) &&
          isDig c2 && isDig c3 && afterOk then
        some ((digitVal c0 * 10 + digitVal c1) * 100 +
          digitVal c2 * 10 + digitVal c3)
      else none
  | _ => none

/-- Leftmost match of the year pattern in a character list (`re.search`). -/
def findYearIn (prev : Option Char) : List Char → Option Nat
  | [] => none
  | c :: rest =>
      match yearHere prev (c :: rest) with
      | some y => some y
      | none => findYearIn (some c) rest

/-- `re.search(r"\b(19|20)\d{2}\b", s)`, returning the matched year. -/
def findYear (s : String) : Option Nat := findYearIn none s.toList

/-- The per-row body of crawler.py lines 120-153: a row is kept only when
both the stripped title text and the year are truthy (`if title and year:`);
the year is the integer value of the stripped year text when that text is
all digits, else `None`. -/
def gs_year (a : GSArticle) : Option Nat :=
  match a.year_text with
  | some yt0 =>
      if allDigits (pyStrip yt0) then some (strToNat (pyStrip yt0)) else none
  | none => none

def gs_keep (a : GSArticle) : Option Pub :=
  match a.title.map pyStrip, gs_year a with
  | some t, some y =>
      if t ≠ "" ∧ y ≠ 0 then some { title := t, year := some y, source := "google" }
      else none
  | _, _ => none

/-- crawler.py lines 114-157: `parse_google_scholar`. -/
def parse_google_scholar (articles : List GSArticle) : List Pub :=
  articles.filterMap gs_keep

/-- The per-article body of crawler.py lines 165-187: an article is kept
whenever its title element resolves (`if title_elem:`), with the stripped
title text; the year is the first match of the year pattern among the
article's descendant strings, or null when no string matches. -/
def dblp_keep (a : DBLPArticle) : Option Pub :=
  let year : Option Nat := a.descendants.findSome? findYear
  match a.title with
  | some t => some { title := pyStrip t, year := year, source := "dblp" }
  | none => none

/-- crawler.py lines 159-190: `parse_dblp`. -/
def parse_dblp (articles : List DBLPArticle) : List Pub :=
  articles.filterMap dblp_keep

/-! ## Queue messages

Everything on the queue is a JSON dict.  The programs inspect a fixed set of
keys, so a message is flattened into a record of `Option` fields (absent key
= `none`).  `task_data` is itself a dict; the fields the system ever reads
from it form `TaskRec`. -/

/-- The task-shaped keys of a queue dict (`task_data` snapshot). -/
structure TaskRec where
  url : Option String := none
  author : Option String := none
  source : Option String := none
  status : Option String := none
  retry_count : Option Int := none
  author_id : Option Int := none
  created_at : Option String := none
deriving DecidableEq, Repr

/-- Python truthiness of the `task_data` dict: nonempty, i.e. some key set. -/
def TaskRec.isTruthy (t : TaskRec) : Bool :=
  t.url.isSome || t.author.isSome || t.source.isSome || t.status.isSome ||
  t.retry_count.isSome || t.author_id.isSome || t.created_at.isSome

/-- A queue message: the union of the key sets of Task, Result and Heartbeat
dicts (they all travel on the single queue `crawl_queue`). -/
structure Msg where
  heartbeat : Option Bool := none
  node_id : Option String := none
  status : Option String := none
  task_data : Option TaskRec := none
  publications : Option (List Pub) := none
  error : Option String := none
  url : Option String := none
  author : Option String := none
  source : Option String := none
  retry_count : Option Int := none
  author_id : Option Int := none
  created_at : Option String := none
deriving DecidableEq, Repr

/-- The task-shaped projection of a message (the worker stores the whole task
dict as `task_data`; these are the fields anything ever reads back from it). -/
def Msg.toTaskRec (m : Msg) : TaskRec :=
  { url := m.url, author := m.author, source := m.source, status := m.status,
    retry_count := m.retry_count, author_id := m.author_id,
    created_at := m.created_at }

/-- What a consumer does with the delivery tag afterwards. -/
inductive AckAction where
  | ack
  | nack (requeue : Bool)
deriving DecidableEq, Repr

/-! ## coordinator.py -/

/-- The externally visible effects of one `process_result` call: calls into
`DBManager` (`update_publications` also touches `last_crawl` internally, see
db_manager.py line 107; effects are recorded at the call level), tasks handed
to `publish_task`, and liveness-map writes. -/
structure CoordEffects where
  db_update_publications : List (Int × List Pub) := []
  db_update_last_crawl : List Int := []
  publishes : List TaskRec := []
  liveness_updates : List (String × Nat) := []
deriving DecidableEq, Repr

/-- coordinator.py lines 106-123: `handle_error`.  Returns the task handed to
`publish_task`, if any.  (The log line after `publish_task` may raise a
`KeyError` when `author` is missing, but the publish has already happened and
the handler's own `except` swallows it, so the returned effect is the same.) -/
def handle_error (task_data : TaskRec) : Option TaskRec :=
  if task_data.url = none then none
  else
    let retry_count : Int := task_data.retry_count.getD 0
    if retry_count < MAX_RETRIES then
      some { task_data with retry_count := some (retry_count + 1),
                            status := some "pending" }
    else none

/-- coordinator.py lines 60-104: `process_result` (`data = None` models a
JSON `null` body; `now` is `datetime.now()` at the heartbeat branch). -/
def process_result (now : Nat) (data : Option Msg) : CoordEffects :=
  match data with
  | none => {}
  | some d =>
      if d.heartbeat = some true then
        match d.node_id with
        | some nid => { liveness_updates := [(nid, now)] }
        | none => {}
      else
        let status := d.status
        let td := d.task_data.getD {}
        if status = some "success" ∧ td.url = none then {}
        else if status = some "success" then
          match td.author_id with
          | some aid => { db_update_publications := [(aid, d.publications.getD [])] }
          | none => {}
        else if status = some "error" then
          { publishes := (handle_error td).toList,
            db_update_last_crawl := if td.isTruthy then td.author_id.toList else [] }
        else {}

/-- coordinator.py lines 194-208 (inside `run_once`): what happens to a
dequeued body — a decoded dict is processed and then acked, a JSON-decode
failure is nacked without requeue.  `process_result` catches all its own
exceptions (line 103), so the ack after it is unconditional. -/
def coordinator_handle_delivery (now : Nat) (body : Option Msg) :
    AckAction × CoordEffects :=
  match body with
  | some m => (AckAction.ack, process_result now (some m))
  | none => (AckAction.nack false, {})

/-! ## db_manager.py / coordinator.py: task generation -/

/-- One row of the `authors` table. -/
structure AuthorRow where
  author_id : Int
  author_name : String
  source : String
  url : String
  last_crawl : Option Nat := none
deriving DecidableEq, Repr

/-- config.py: GOOGLE_SCHOLAR_INTERVAL = 30 seconds. -/
def GOOGLE_SCHOLAR_INTERVAL : Nat := 30

/-- config.py: DBLP_INTERVAL = 30 seconds. -/
def DBLP_INTERVAL : Nat := 30

/-- The WHERE clause of db_manager.py lines 64-75: never crawled, or stale
for its source (`last_crawl < NOW() - interval`). -/
def author_due (now : Nat) (r : AuthorRow) : Bool :=
  match r.last_crawl with
  | none => true
  | some lc =>
      (r.source == "google" && decide (lc + GOOGLE_SCHOLAR_INTERVAL < now)) ||
      (r.source == "dblp" && decide (lc + DBLP_INTERVAL < now))

/-- db_manager.py lines 61-99: `get_authors_for_crawling` over table rows. -/
def get_authors_for_crawling (rows : List AuthorRow) (now : Nat) :
    List AuthorRow :=
  rows.filter (author_due now)

/-- The task dict built at coordinator.py lines 157-165. -/
def mkTask (now_iso : String) (a : AuthorRow) : TaskRec :=
  { author_id := some a.author_id, url := some a.url,
    author := some a.author_name, source := some a.source,
    status := some "pending", retry_count := some 0,
    created_at := some now_iso }

/-- coordinator.py lines 140-181: `generate_tasks`, given the author list the
database returned and the broker's queue length.  Returns the generated tasks
and the author ids passed to `update_last_crawl`, in call order.  The inner
`if tasks:` loop of lines 170-172 sits inside the per-author loop, so each of
the n iterations re-marks all n authors (`tasks` is never empty there: the
current task was appended first).  `gen_step` is one iteration of the
per-author loop (lines 156-172); `generate_tasks` wraps it in the
queue-length guard of line 153. -/
def gen_step (authors : List AuthorRow) (now_iso : String)
    (acc : List TaskRec × List Int) (author : AuthorRow) :
    List TaskRec × List Int :=
  let tasks := acc.1 ++ [mkTask now_iso author]
  let updates :=
    if tasks.isEmpty then acc.2
    else acc.2 ++ authors.map AuthorRow.author_id
  (tasks, updates)

def generate_tasks (authors : List AuthorRow) (queue_length : Nat)
    (now_iso : String) : List TaskRec × List Int :=
  if queue_length < 500 then
    authors.foldl (gen_step authors now_iso) ([], [])
  else ([], [])

/-! ## crawler.py: the worker -/

/-- crawler.py lines 226-278: `process_task`.  The crawl call is abstracted
by its outcome: `Except.error e` models `self.crawl` raising an exception
with message `e`, `Except.ok pubs` models it returning (`pubs = none` is the
`return None` of a fallen-through retry loop, stored under `publications`).
The function returns the result dict handed to `basic_publish`, if any. -/
def process_task (node_id : String)
    (crawlResult : Except String (Option (List Pub))) (task : Msg) :
    Option Msg :=
  if task.heartbeat = some true then none
  else if task.url = none ∨ task.author = none ∨ task.source = none then none
  else
    match crawlResult with
    | Except.ok pubs =>
        some { status := some "success", task_data := some task.toTaskRec,
               publications := pubs, node_id := some node_id }
    | Except.error e =>
        some { status := some "error", task_data := some task.toTaskRec,
               error := some e, node_id := some node_id }

/-- crawler.py lines 286-299 (inside `run_once`): what happens to a dequeued
body — a decoded dict is processed by `process_task` and acked; a JSON-decode
failure is nacked without requeue.  For dict bodies `process_task` swallows
its own exceptions (lines 254-263), so the ack is unconditional; the
`requeue=True` nack of line 299 is reachable only for non-dict JSON bodies,
which are outside this model. -/
def crawler_handle_delivery (node_id : String)
    (crawlResult : Except String (Option (List Pub))) (body : Option Msg) :
    AckAction × Option Msg :=
  match body with
  | some t => (AckAction.ack, process_task node_id crawlResult t)
  | none => (AckAction.nack false, none)

/-! ## crawler.py: the fetch loop -/

/-- An HTML page, modelled by what the two parsers would extract from it. -/
structure Page where
  gs : List GSArticle := []
  dblp : List DBLPArticle := []
deriving DecidableEq, Repr

/-- Outcome of one `self.session.get` attempt, as `crawl` observes it:
a 2xx page, an HTTP error status (raised by `raise_for_status`), another
`requests.exceptions.RequestException`, or a non-request exception raised
inside the `try` block (the only path that reaches the generic handler of
crawler.py lines 93-96). -/
inductive HttpOutcome where
  | ok (page : Page)
  | httpError (code : Nat)
  | netError (msg : String)
  | miscError (msg : String)
deriving DecidableEq, Repr

/-- `str(e)` of a raised `requests` error: an `HTTPError` from
`raise_for_status` renders as "<code> Client Error: ... for url: <url>". -/
def outcomeErrStr (url : String) : HttpOutcome → String
  | HttpOutcome.httpError code => toString code ++ " Client Error for url: " ++ url
  | HttpOutcome.netError m => m
  | _ => ""

/-- Python `pat in s` (substring test). -/
def strContains (s pat : String) : Bool :=
  s.toList.tails.any (fun t => pat.toList.isPrefixOf t)

/-- crawler.py lines 192-204: `handle_request_error`.  Every branch raises;
the result is the updated proxy-pool state (429/403 call `mark_blocked`) and
the message of the exception raised. -/
def handle_request_error (st : PMState) (errStr : String) (proxy : String)
    (now : Nat) : PMState × String :=
  if strContains errStr "429" then (mark_blocked st proxy now, ERROR_RATE_LIMIT)
  else if strContains errStr "403" then (mark_blocked st proxy now, ERROR_IP_BLOCKED)
  else (st, "Request failed: " ++ errStr)

/-- Everything observable about one `crawl` call: number of HTTP attempts
issued, the sleeps performed (in order), the final proxy-pool state and
clock, and the outcome — `Except.error e` models `crawl` raising an
exception with message `e`, `Except.ok none` models the `while` loop
completing all iterations and the function returning `None`. -/
structure CrawlTrace where
  attempts : Nat := 0
  sleeps : List Nat := []
  pm : PMState
  clock : Nat
  outcome : Except String (Option (List Pub))
deriving DecidableEq, Repr

/-- crawler.py lines 53-99: `crawl`.  `responses` supplies the outcome of
each successive HTTP attempt (exhaustion falls back to a network error, as a
dead connection would).  The clock advances by each sleep.  Mirrors the
source: a `RequestException` increments `retry_count` and then calls
`handle_request_error`, which always raises — so the `time.sleep` after it
never runs and the loop never reaches a second iteration on that path; only
a non-request exception (the generic handler, lines 93-96) sleeps
`retry_count * 2` seconds and retries.  The `finally` of lines 97-99
releases the proxy on every path on which one was acquired. -/
def crawl (url source : String) (responses : List HttpOutcome)
    (pm0 : PMState) (clock0 : Nat) : CrawlTrace :=
  go 3 0 responses pm0 clock0 0 []
where
  go : Nat → Nat → List HttpOutcome → PMState → Nat → Nat → List Nat →
      CrawlTrace
    | 0, _, _, pm, clock, attempts, sleeps =>
        { attempts := attempts, sleeps := sleeps, pm := pm, clock := clock,
          outcome := Except.ok none }
    | fuel + 1, retry_count, responses, pm, clock, attempts, sleeps =>
        match get_proxy pm clock with
        | (none, pm1) =>
            { attempts := attempts, sleeps := sleeps, pm := pm1,
              clock := clock, outcome := Except.error "No proxies available" }
        | (some purl, pm1) =>
            let outcome := responses.headD (HttpOutcome.netError "connection aborted")
            let rest := responses.tail
            match outcome with
            | HttpOutcome.ok page =>
                if source = "google" then
                  { attempts := attempts + 1, sleeps := sleeps,
                    pm := release_proxy pm1 purl, clock := clock,
                    outcome := Except.ok (some (parse_google_scholar page.gs)) }
                else if source = "dblp" then
                  { attempts := attempts + 1, sleeps := sleeps,
                    pm := release_proxy pm1 purl, clock := clock,
                    outcome := Except.ok (some (parse_dblp page.dblp)) }
                else
                  { attempts := attempts + 1, sleeps := sleeps,
                    pm := release_proxy pm1 purl, clock := clock,
                    outcome := Except.error ("Unknown source: " ++ source) }
            | HttpOutcome.httpError code =>
                let r := handle_request_error pm1
                  (outcomeErrStr url (HttpOutcome.httpError code)) purl clock
                { attempts := attempts + 1, sleeps := sleeps,
                  pm := release_proxy r.1 purl, clock := clock,
                  outcome := Except.error r.2 }
            | HttpOutcome.netError m =>
                let r := handle_request_error pm1 m purl clock
                { attempts := attempts + 1, sleeps := sleeps,
                  pm := release_proxy r.1 purl, clock := clock,
                  outcome := Except.error r.2 }
            | HttpOutcome.miscError _ =>
                let rc1 := retry_count + 1
                go fuel rc1 rest (release_proxy pm1 purl) (clock + rc1 * 2)
                  (attempts + 1) (sleeps ++ [rc1 * 2])

/-! ## Two workers inside `get_proxy` at once

main.py runs the N workers as threads of one process (lines 64-75), and
`ProxyManager` is a process-wide singleton (proxy_manager.py lines 17-22),
so `get_proxy` runs concurrently on shared maps with no lock.  The machine
below executes `get_proxy` statement by statement: one atomic step covers
the per-proxy checks of lines 81-92 (via `check_proxy`), a separate atomic
step covers the reserving write and return of lines 94-96 (via
`reserve_proxy`).  CPython's interpreter can switch threads between those
statements, so every interleaving of these steps is a possible execution. -/

/-- Where a thread is inside its `get_proxy` call. -/
inductive TPhase where
  | scan (rest : List ProxyInfo)
  | reserve (p : ProxyInfo)
  | done (res : Option String)
deriving DecidableEq, Repr

/-- One atomic statement of `get_proxy` executed by one thread. -/
def tstep (now : Nat) (pm : PMState) : TPhase → TPhase × PMState
  | TPhase.scan [] => (TPhase.done none, pm)
  | TPhase.scan (p :: rest) =>
      match check_proxy now pm p with
      | (true, pm1) => (TPhase.reserve p, pm1)
      | (false, pm1) => (TPhase.scan rest, pm1)
  | TPhase.reserve p =>
      let r := reserve_proxy now pm p
      (TPhase.done (some r.1), r.2)
  | TPhase.done r => (TPhase.done r, pm)

/-- Shared pool state plus the positions of two threads, each inside its own
`get_proxy` call. -/
structure Sys where
  pm : PMState
  thA : TPhase
  thB : TPhase
deriving DecidableEq, Repr

/-- Run one step of thread A (`true`) or thread B (`false`). -/
def sysStep (now : Nat) (s : Sys) (pickA : Bool) : Sys :=
  if pickA then
    let r := tstep now s.pm s.thA
    { s with thA := r.1, pm := r.2 }
  else
    let r := tstep now s.pm s.thB
    { s with thB := r.1, pm := r.2 }

/-- Execute a schedule (a list of thread choices). -/
def runSched (now : Nat) (sched : List Bool) (s : Sys) : Sys :=
  sched.foldl (sysStep now) s

/-! ## Coherence of the step machine with the sequential `get_proxy` -/

/-- Run one thread alone for `n` steps. -/
def runThread (now : Nat) : Nat → TPhase → PMState → TPhase × PMState
  | 0, ph, pm => (ph, pm)
  | n + 1, ph, pm => runThread now n (tstep now pm ph).1 (tstep now pm ph).2

theorem runThread_done (now : Nat) :
    ∀ (n : Nat) (r : Option String) (pm : PMState),
      runThread now n (TPhase.done r) pm = (TPhase.done r, pm) := by
  intro n
  induction n with
  | zero => intro r pm; rfl
  | succ k ih => intro r pm; simpa [runThread, tstep] using ih r pm

/-- Run alone (no interleaving), the step machine computes exactly
`get_proxy`: the machine is `get_proxy` cut at statement boundaries. -/
theorem runThread_scan_eq_go (now : Nat) :
    ∀ (l : List ProxyInfo) (k : Nat) (pm : PMState),
      runThread now (2 * l.length + 1 + k) (TPhase.scan l) pm =
        (TPhase.done (get_proxy.go now l pm).1, (get_proxy.go now l pm).2) := by
  intro l
  induction l with
  | nil =>
      intro k pm
      have h1 : 2 * ([] : List ProxyInfo).length + 1 + k = k + 1 := by
        simp; omega
      rw [h1]
      simpa [runThread, tstep, get_proxy.go] using runThread_done now k none pm
  | cons p rest ih =>
      intro k pm
      have h1 : 2 * (p :: rest).length + 1 + k =
          (2 * rest.length + 1 + (k + 1)) + 1 := by
        simp [List.length_cons]; omega
      rw [h1]
      show runThread now _ (TPhase.scan (p :: rest)) pm = _
      rcases hc : check_proxy now pm p with ⟨passed, pm1⟩
      cases passed with
      | false =>
          have hstep : tstep now pm (TPhase.scan (p :: rest)) =
              (TPhase.scan rest, pm1) := by simp [tstep, hc]
          have hgo : get_proxy.go now (p :: rest) pm = get_proxy.go now rest pm1 := by
            simp [get_proxy.go, scan_one, hc]
          simp only [runThread, hstep]
          rw [hgo]
          exact ih (k + 1) pm1
      | true =>
          have hstep : tstep now pm (TPhase.scan (p :: rest)) =
              (TPhase.reserve p, pm1) := by simp [tstep, hc]
          have hres : tstep now pm1 (TPhase.reserve p) =
              (TPhase.done (some (reserve_proxy now pm1 p).1),
                (reserve_proxy now pm1 p).2) := rfl
          have h2 : 2 * rest.length + 1 + (k + 1) =
              (2 * rest.length + 1 + k) + 1 := by omega
          have hgo : get_proxy.go now (p :: rest) pm =
              (some (reserve_proxy now pm1 p).1, (reserve_proxy now pm1 p).2) := by
            simp [get_proxy.go, scan_one, hc]
          calc runThread now ((2 * rest.length + 1 + (k + 1)) + 1)
                (TPhase.scan (p :: rest)) pm
              = runThread now (2 * rest.length + 1 + (k + 1))
                  (TPhase.reserve p) pm1 := by
                simp only [runThread, hstep]
            _ = runThread now (2 * rest.length + 1 + k)
                  (TPhase.done (some (reserve_proxy now pm1 p).1))
                  (reserve_proxy now pm1 p).2 := by
                rw [h2]; simp only [runThread, hres]
            _ = (TPhase.done (some (reserve_proxy now pm1 p).1),
                  (reserve_proxy now pm1 p).2) := runThread_done now _ _ _
            _ = (TPhase.done (get_proxy.go now (p :: rest) pm).1,
                  (get_proxy.go now (p :: rest) pm).2) := by rw [hgo]

/-! ## Helper lemmas about `generate_tasks` -/

theorem foldl_gen_step_fst (authors : List AuthorRow) (now_iso : String) :
    ∀ (l : List AuthorRow) (acc : List TaskRec × List Int),
      (l.foldl (gen_step authors now_iso) acc).1 =
        acc.1 ++ l.map (mkTask now_iso) := by
  intro l
  induction l with
  | nil => intro acc; simp
  | cons a rest ih =>
      intro acc
      simp only [List.foldl_cons, List.map_cons, ih, gen_step]
      simp

/-- Collapsing the generation fold: the tasks produced are exactly one per
author when the queue length is strictly below 500, and none otherwise. -/
theorem generate_tasks_fst (authors : List AuthorRow) (q : Nat)
    (now_iso : String) :
    (generate_tasks authors q now_iso).1 =
      if q < 500 then authors.map (mkTask now_iso) else [] := by
  unfold generate_tasks
  split
  · simpa using foldl_gen_step_fst authors now_iso authors ([], [])
  · rfl

theorem mem_gen_step_snd_mono (authors : List AuthorRow) (now_iso : String)
    (x : Int) :
    ∀ (l : List AuthorRow) (acc : List TaskRec × List Int), x ∈ acc.2 →
      x ∈ (l.foldl (gen_step authors now_iso) acc).2 := by
  intro l
  induction l with
  | nil => intro acc h; simpa using h
  | cons a rest ih =>
      intro acc h
      rw [List.foldl_cons]
      apply ih
      simp [gen_step, h]

theorem mem_foldl_gen_step_snd (authors : List AuthorRow) (now_iso : String)
    (x : Int) (hx : x ∈ authors.map AuthorRow.author_id) :
    ∀ (l : List AuthorRow) (acc : List TaskRec × List Int), l ≠ [] →
      x ∈ (l.foldl (gen_step authors now_iso) acc).2 := by
  intro l
  cases l with
  | nil => intro acc h; exact absurd rfl h
  | cons a rest =>
      intro acc _
      rw [List.foldl_cons]
      apply mem_gen_step_snd_mono
      simp [gen_step, hx]

/-! ## Claim theorems -/

/-- C1: for every task reaching the coordinator's error handler (a dict that
has a `url` key), if its retry_count is below MAX_RETRIES the handler
republishes it with retry_count incremented by exactly 1 and status
"pending"; if retry_count is at or above MAX_RETRIES nothing is republished;
and any task the handler ever republishes has retry_count ≤ MAX_RETRIES. -/
theorem c1_retry_count_never_exceeds_max (td : TaskRec) (h : td.url ≠ none) :
    (∀ rc : Int, td.retry_count = some rc → rc < MAX_RETRIES →
      handle_error td =
        some { td with retry_count := some (rc + 1), status := some "pending" }) ∧
    (∀ rc : Int, td.retry_count = some rc → MAX_RETRIES ≤ rc →
      handle_error td = none) ∧
    (∀ out : TaskRec, handle_error td = some out →
      ∃ rc : Int, out.retry_count = some rc ∧ rc ≤ MAX_RETRIES) := by
  refine ⟨?_, ?_, ?_⟩
  · intro rc hrc hlt
    simp [handle_error, h, hrc, hlt]
  · intro rc hrc hge
    simp [handle_error, h, hrc, not_lt.mpr hge]
  · intro out hout
    unfold handle_error at hout
    rw [if_neg h] at hout
    by_cases hlt : (td.retry_count.getD 0 : Int) < MAX_RETRIES
    · rw [if_pos hlt] at hout
      refine ⟨td.retry_count.getD 0 + 1, ?_, by
        unfold MAX_RETRIES at hlt ⊢; omega⟩
      have := hout.symm
      injection this with h1
      rw [h1]
    · rw [if_neg hlt] at hout
      exact absurd hout (by simp)

/-- C1 witness: a task with retry_count 2 < MAX_RETRIES = 3 is republished
with retry_count 3 and status "pending". -/
theorem c1_retry_count_never_exceeds_max_witness :
    handle_error
        { url := some "http://dblp/a", author := some "A",
          retry_count := some 2 } =
      some
        { url := some "http://dblp/a", author := some "A",
          retry_count := some 3, status := some "pending" } :=
  (c1_retry_count_never_exceeds_max
    { url := some "http://dblp/a", author := some "A", retry_count := some 2 }
    (by decide)).1 2 rfl (by decide)

/-- C2 (evaluation at the failing input): when the first HTTP attempt of a
crawl returns status 429, `handle_request_error` marks the proxy blocked and
then raises, so `crawl` re-raises `ERROR_RATE_LIMIT` after exactly one
attempt, with no back-off sleep and no retry — even though a second proxy is
available and the loop had two iterations of budget left.  The worker then
publishes an error Result carrying the rate-limit indicator.  This
contradicts the claimed `attempt * 2` back-off and up-to-3-attempt retry. -/
theorem c2_rate_limit_no_backoff_no_retry :
    crawl "http://scholar.example/a" "google" [HttpOutcome.httpError 429]
        { proxy_list := [{ host := "1.2.3.4", port := "8080" },
                         { host := "5.6.7.8", port := "8080" }] } 50 =
      { attempts := 1, sleeps := [],
        pm := { blocked_ips := [("http", 50)],
                ip_last_used := [("1.2.3.4", 50)],
                proxy_list := [{ host := "1.2.3.4", port := "8080" },
                               { host := "5.6.7.8", port := "8080" }] },
        clock := 50, outcome := Except.error ERROR_RATE_LIMIT } ∧
    process_task "w1" (Except.error ERROR_RATE_LIMIT)
        { url := some "http://scholar.example/a", author := some "A",
          source := some "google", status := some "pending",
          retry_count := some 0, author_id := some 7 } =
      some
        { status := some "error",
          task_data := some
            { url := some "http://scholar.example/a",
              author := some "A", source := some "google",
              status := some "pending", retry_count := some 0,
              author_id := some 7 },
          error := some ERROR_RATE_LIMIT, node_id := some "w1" } := by
  decide

/-- C3 (evaluation at the failing input): for an unauthenticated proxy the
key `mark_blocked` stores is the URL scheme "http", not the host, so
`get_proxy` returns the proxy zero seconds after it was blocked — far inside
the IP_BLOCK_DURATION window.  For an authenticated proxy the extracted key
is the host and the block does hold until the window elapses. -/
theorem c3_blocked_unauthenticated_proxy_returned_immediately :
    extract_ip "http://1.2.3.4:8080" = "http" ∧
    (get_proxy
        (mark_blocked { proxy_list := [{ host := "1.2.3.4", port := "8080" }] }
          "http://1.2.3.4:8080" 100) 100).1 = some "http://1.2.3.4:8080" ∧
    extract_ip "http://u:pw@9.9.9.9:80" = "9.9.9.9" ∧
    (get_proxy
        (mark_blocked
          { proxy_list :=
              [{ host := "9.9.9.9", port := "80",
                 username := some "u", password := some "pw" }] }
          "http://u:pw@9.9.9.9:80" 100) 3699).1 = none := by
  decide

/-- C6 (evaluation at the failing interleaving): two threads run `get_proxy`
at the same instant on the shared singleton pool; thread A passes the
blocked/cooldown checks and is preempted before the reserving write, thread
B then runs its checks and its write, and A resumes with its own write.
Both calls return the very same proxy, zero seconds — i.e. well inside
MIN_REQUEST_INTERVAL — apart, with no intervening release.  The unlocked
check-then-set of `get_proxy` is not the atomic check-and-reserve the claim
asserts. -/
theorem c6_concurrent_acquire_same_proxy :
    (runSched 100 [true, false, false, true]
        { pm := { proxy_list := [{ host := "1.2.3.4", port := "8080" }] },
          thA := TPhase.scan [{ host := "1.2.3.4", port := "8080" }],
          thB := TPhase.scan [{ host := "1.2.3.4", port := "8080" }] }).thA =
      TPhase.done (some "http://1.2.3.4:8080") ∧
    (runSched 100 [true, false, false, true]
        { pm := { proxy_list := [{ host := "1.2.3.4", port := "8080" }] },
          thA := TPhase.scan [{ host := "1.2.3.4", port := "8080" }],
          thB := TPhase.scan [{ host := "1.2.3.4", port := "8080" }] }).thB =
      TPhase.done (some "http://1.2.3.4:8080") := by
  decide

/-- C7 counterexample: at queue depth exactly 500 — a depth that does NOT
exceed the 500 high-water mark — `generate_tasks` returns the empty sequence
even though a stale (never-crawled) author exists, because the source guard
is `queue_length < 500`, not `queue_length <= 500`. -/
theorem c7_boundary_counterexample :
    (generate_tasks
        [{ author_id := 7, author_name := "A", source := "dblp",
           url := "http://dblp/a", last_crawl := none }] 500 "t0").1 = [] ∧
    ¬ (500 : Nat) > 500 := by
  decide

/-- C7 as amended: `generate_tasks` returns the empty sequence whenever the
queue depth is at or above the 500 high-water mark (strict `< 500` guard in
the source, so depth exactly 500 already suppresses generation), and
generates exactly one task per stale author whenever the depth is strictly
below 500. -/
theorem c7_backpressure_amended (authors : List AuthorRow) (q : Nat)
    (now_iso : String) :
    (generate_tasks authors q now_iso).1 =
      if q < 500 then authors.map (mkTask now_iso) else [] :=
  generate_tasks_fst authors q now_iso

/-- C10: a task dict missing any of the required keys url/author/source
produces no Result at all from `process_task` (which returns, rather than
raising, on this path) and the worker's `run_once` acknowledges the
delivery. -/
theorem c10_malformed_task_no_result (nid : String)
    (cr : Except String (Option (List Pub))) (m : Msg)
    (h : m.url = none ∨ m.author = none ∨ m.source = none) :
    process_task nid cr m = none ∧
    crawler_handle_delivery nid cr (some m) = (AckAction.ack, none) := by
  have hpt : process_task nid cr m = none := by
    unfold process_task
    rcases h with h | h | h <;> simp [h]
  exact ⟨hpt, by simp [crawler_handle_delivery, hpt]⟩

/-- C10 witness: a task missing `url` is dropped and acked. -/
theorem c10_malformed_task_no_result_witness :
    process_task "node1" (Except.ok (some []))
        { status := some "pending", author := some "A",
          source := some "dblp" } = none ∧
    crawler_handle_delivery "node1" (Except.ok (some []))
        (some
          { status := some "pending", author := some "A",
            source := some "dblp" }) = (AckAction.ack, none) :=
  c10_malformed_task_no_result "node1" (Except.ok (some [])) _ (Or.inl rfl)

/-! ## Helper lemmas about the parsers -/

theorem isDig_bounds (c : Char) (h : isDig c = true) :
    48 ≤ c.toNat ∧ c.toNat ≤ 57 := by
  simpa [isDig, Bool.and_eq_true, decide_eq_true_eq] using h

theorem yearHere_range (prev : Option Char) (cs : List Char) (y : Nat)
    (h : yearHere prev cs = some y) : 1900 ≤ y ∧ y ≤ 2099 := by
  match cs with
  | [] => simp [yearHere] at h
  | [_] => simp [yearHere] at h
  | [_, _] => simp [yearHere] at h
  | [_, _, _] => simp [yearHere] at h
  | c0 :: c1 :: c2 :: c3 :: rest =>
      simp only [yearHere] at h
      split at h
      · rename_i hcond
        simp only [Bool.and_eq_true, Bool.or_eq_true, decide_eq_true_eq] at hcond
        obtain ⟨⟨⟨⟨_, hor⟩, h2⟩, h3⟩, _⟩ := hcond
        obtain ⟨hb2l, hb2u⟩ := isDig_bounds c2 h2
        obtain ⟨hb3l, hb3u⟩ := isDig_bounds c3 h3
        injection h with hy
        have n1 : Char.toNat '1' = 49 := by decide
        have n9 : Char.toNat '9' = 57 := by decide
        have n2 : Char.toNat '2' = 50 := by decide
        have n0 : Char.toNat '0' = 48 := by decide
        rcases hor with ⟨e0, e1⟩ | ⟨e0, e1⟩ <;> subst e0 <;> subst e1 <;>
          simp only [digitVal] at hy <;> subst hy <;> omega
      · exact absurd h (by simp)

theorem findYearIn_range :
    ∀ (cs : List Char) (prev : Option Char) (y : Nat),
      findYearIn prev cs = some y → 1900 ≤ y ∧ y ≤ 2099 := by
  intro cs
  induction cs with
  | nil => intro prev y h; simp [findYearIn] at h
  | cons c rest ih =>
      intro prev y h
      unfold findYearIn at h
      cases hy : yearHere prev (c :: rest) with
      | some y0 =>
          rw [hy] at h
          injection h with h1
          exact h1 ▸ yearHere_range prev (c :: rest) y0 hy
      | none =>
          rw [hy] at h
          exact ih (some c) y h

theorem findYear_range (s : String) (y : Nat) (h : findYear s = some y) :
    1900 ≤ y ∧ y ≤ 2099 :=
  findYearIn_range s.toList none y h

theorem findSome?_findYear_range (l : List String) (y : Nat)
    (h : l.findSome? findYear = some y) : 1900 ≤ y ∧ y ≤ 2099 := by
  obtain ⟨s, _, hy⟩ := List.exists_of_findSome?_eq_some h
  exact findYear_range s y hy

theorem gs_keep_some (a : GSArticle) (p : Pub) (h : gs_keep a = some p) :
    p.title ≠ "" ∧ ∃ y : Nat, p.year = some y ∧ y ≠ 0 := by
  unfold gs_keep at h
  cases ht : a.title with
  | none =>
      rw [ht] at h
      change (none : Option Pub) = some p at h
      exact absurd h (by simp)
  | some t =>
      cases hyt : a.year_text with
      | none =>
          have hy : gs_year a = none := by unfold gs_year; rw [hyt]
          rw [ht, hy] at h
          change (none : Option Pub) = some p at h
          exact absurd h (by simp)
      | some yt =>
          have hy : gs_year a =
              (if allDigits (pyStrip yt) = true then
                some (strToNat (pyStrip yt)) else none) := by
            unfold gs_year; rw [hyt]
          rw [ht, hy] at h
          by_cases hd : allDigits (pyStrip yt) = true
          · rw [if_pos hd] at h
            change (if pyStrip t ≠ "" ∧ strToNat (pyStrip yt) ≠ 0 then
                some { title := pyStrip t,
                       year := some (strToNat (pyStrip yt)),
                       source := "google" }
              else none) = some p at h
            split at h
            · rename_i hcond
              injection h with h1
              rw [← h1]
              exact ⟨hcond.1, strToNat (pyStrip yt), rfl, hcond.2⟩
            · exact absurd h (by simp)
          · rw [if_neg hd] at h
            change (none : Option Pub) = some p at h
            exact absurd h (by simp)

theorem dblp_keep_some (a : DBLPArticle) (p : Pub) (h : dblp_keep a = some p) :
    ∃ t : String, a.title = some t ∧
      p = { title := pyStrip t, year := a.descendants.findSome? findYear,
            source := "dblp" } := by
  unfold dblp_keep at h
  cases ht : a.title with
  | none => rw [ht] at h; simp at h
  | some t =>
      rw [ht] at h
      injection h with h1
      exact ⟨t, rfl, h1.symm⟩

/-! ## Helper lemma for counting generated tasks -/

theorem countP_map_mkTask (now_iso : String) (aid : Int) :
    ∀ l : List AuthorRow,
      (l.map (mkTask now_iso)).countP
          (fun t => decide (t.author_id = some aid)) =
        l.countP (fun r => decide (r.author_id = aid)) := by
  intro l
  induction l with
  | nil => rfl
  | cons a rest ih =>
      have hdec : decide ((mkTask now_iso a).author_id = some aid) =
          decide (a.author_id = aid) :=
        decide_eq_decide.mpr (by simp [mkTask])
      simp [List.countP_cons, ih, hdec]

/-- C4: a well-formed Task message (status "pending", no heartbeat key)
dequeued by the coordinator matches neither the heartbeat nor the success
nor the error branch of `process_result`: no database call, no publish, no
liveness update — and `run_once` then acks the delivery, permanently
removing the Task from the queue without executing or republishing it. -/
theorem c4_pending_task_acked_without_effects (now : Nat) (m : Msg)
    (hstatus : m.status = some "pending") (hhb : m.heartbeat = none) :
    process_result now (some m) = {} ∧
    coordinator_handle_delivery now (some m) = (AckAction.ack, {}) := by
  have hpr : process_result now (some m) = {} := by
    simp [process_result, hstatus, hhb]
  exact ⟨hpr, by simp [coordinator_handle_delivery, hpr]⟩

/-- C4 witness: a concrete pending Task message produces no effects and is
acked. -/
theorem c4_pending_task_acked_without_effects_witness :
    process_result 5
        (some { status := some "pending", url := some "http://dblp/a",
                author := some "A", source := some "dblp",
                retry_count := some 0, author_id := some 7 }) = {} ∧
    coordinator_handle_delivery 5
        (some { status := some "pending", url := some "http://dblp/a",
                author := some "A", source := some "dblp",
                retry_count := some 0, author_id := some 7 }) =
      (AckAction.ack, {}) :=
  c4_pending_task_acked_without_effects 5
    { status := some "pending", url := some "http://dblp/a",
      author := some "A", source := some "dblp",
      retry_count := some 0, author_id := some 7 } rfl rfl

/-- C5: a well-formed Result message (top-level status, task_data, node_id
and publications-or-error keys, but no top-level url/author/source and no
heartbeat key) dequeued by a worker fails `process_task`'s required-field
check, so the worker publishes nothing and `run_once` acks the delivery —
the Result is removed from the shared queue without the coordinator ever
consuming it. -/
theorem c5_result_message_dropped_by_worker (nid : String)
    (cr : Except String (Option (List Pub))) (m : Msg)
    (h1 : m.status.isSome) (h2 : m.task_data.isSome) (h3 : m.node_id.isSome)
    (h4 : m.publications.isSome ∨ m.error.isSome)
    (h5 : m.url = none) (h6 : m.author = none) (h7 : m.source = none)
    (h8 : m.heartbeat = none) :
    process_task nid cr m = none ∧
    crawler_handle_delivery nid cr (some m) = (AckAction.ack, none) := by
  have hpt : process_task nid cr m = none := by
    unfold process_task
    simp [h5, h8]
  exact ⟨hpt, by simp [crawler_handle_delivery, hpt]⟩

/-- C5 witness: a concrete success Result is dropped and acked by the
worker. -/
theorem c5_result_message_dropped_by_worker_witness :
    process_task "n2" (Except.ok (some []))
        { status := some "success", task_data := some { url := some "u" },
          node_id := some "n1", publications := some [] } = none ∧
    crawler_handle_delivery "n2" (Except.ok (some []))
        (some
          { status := some "success", task_data := some { url := some "u" },
            node_id := some "n1", publications := some [] }) =
      (AckAction.ack, none) :=
  c5_result_message_dropped_by_worker "n2" (Except.ok (some []))
    { status := some "success", task_data := some { url := some "u" },
      node_id := some "n1", publications := some [] }
    rfl rfl rfl (Or.inl rfl) rfl rfl rfl rfl

/-- C8 counterexample: the DBLP parser keeps a publication whose year
resolves to nothing (year = null), and the Google Scholar parser keeps a
year that is numeric but far outside the 4-digit 1900-2099 pattern — both
contradict "kept only if both title and year resolve to non-empty/valid
values, where a valid year matches a 4-digit 1900-2099 pattern". -/
theorem c8_claim_counterexample :
    parse_dblp [{ title := some "A Paper", descendants := ["no year here"] }] =
      [{ title := "A Paper", year := none, source := "dblp" }] ∧
    parse_google_scholar [{ title := some "T", year_text := some "42" }] =
      [{ title := "T", year := some 42, source := "google" }] := by
  decide

/-- C8 as amended: the Google Scholar parser keeps a row only if the
stripped title is non-empty and the year text is a non-empty digit string
with non-zero value (any such number, not only 1900-2099); the DBLP parser
keeps an article whenever its title element resolves, regardless of year —
the year field is the first 1900-2099 pattern match among the entry's
strings, or null when none matches.  Skipped entries never reach the output
list and are not errors. -/
theorem c8_title_year_policy_amended :
    (∀ (arts : List GSArticle) (p : Pub), p ∈ parse_google_scholar arts →
      p.title ≠ "" ∧ ∃ y : Nat, p.year = some y ∧ y ≠ 0) ∧
    (∀ (arts : List DBLPArticle) (p : Pub), p ∈ parse_dblp arts →
      ∀ y : Nat, p.year = some y → 1900 ≤ y ∧ y ≤ 2099) ∧
    (∀ (t : String) (ds : List String),
      parse_dblp [{ title := some t, descendants := ds }] =
        [{ title := pyStrip t, year := ds.findSome? findYear,
           source := "dblp" }]) := by
  refine ⟨?_, ?_, ?_⟩
  · intro arts p hp
    rw [parse_google_scholar, List.mem_filterMap] at hp
    obtain ⟨a, _, ha⟩ := hp
    exact gs_keep_some a p ha
  · intro arts p hp y hy
    rw [parse_dblp, List.mem_filterMap] at hp
    obtain ⟨a, _, ha⟩ := hp
    obtain ⟨t, _, hpeq⟩ := dblp_keep_some a p ha
    rw [hpeq] at hy
    exact findSome?_findYear_range a.descendants y hy
  · intro t ds
    rfl

/-- C8 witness: the amended Google Scholar policy evaluated on a concrete
kept publication. -/
theorem c8_title_year_policy_amended_witness :
    ({ title := "T", year := some 2020, source := "google" } : Pub).title ≠ "" ∧
    ∃ y : Nat,
      ({ title := "T", year := some 2020, source := "google" } : Pub).year =
          some y ∧ y ≠ 0 :=
  c8_title_year_policy_amended.1
    [{ title := some "T", year_text := some "2020" }]
    { title := "T", year := some 2020, source := "google" } (by decide)

/-- C9: an author row with null last_crawl passes the record store's
staleness filter, and — when the queue is below the high-water mark and the
store returns that author exactly once — `generate_tasks` emits exactly one
task for it, with retry_count 0 and status "pending", and passes the
author's id to `update_last_crawl` before returning. -/
theorem c9_never_crawled_author_one_pending_task (rows : List AuthorRow)
    (db_now : Nat) (q : Nat) (now_iso : String) (a : AuthorRow)
    (hq : q < 500) (hmem : a ∈ rows) (hnull : a.last_crawl = none)
    (huniq : (get_authors_for_crawling rows db_now).countP
        (fun r => decide (r.author_id = a.author_id)) = 1) :
    ((generate_tasks (get_authors_for_crawling rows db_now) q now_iso).1.countP
        (fun t => decide (t.author_id = some a.author_id)) = 1) ∧
    mkTask now_iso a ∈
      (generate_tasks (get_authors_for_crawling rows db_now) q now_iso).1 ∧
    (mkTask now_iso a).retry_count = some 0 ∧
    (mkTask now_iso a).status = some "pending" ∧
    a.author_id ∈
      (generate_tasks (get_authors_for_crawling rows db_now) q now_iso).2 := by
  have hdue : a ∈ get_authors_for_crawling rows db_now := by
    unfold get_authors_for_crawling
    exact List.mem_filter.mpr ⟨hmem, by simp [author_due, hnull]⟩
  have hfst : (generate_tasks (get_authors_for_crawling rows db_now) q now_iso).1 =
      (get_authors_for_crawling rows db_now).map (mkTask now_iso) := by
    rw [generate_tasks_fst, if_pos hq]
  refine ⟨?_, ?_, rfl, rfl, ?_⟩
  · rw [hfst, countP_map_mkTask, huniq]
  · rw [hfst]
    exact List.mem_map_of_mem (mkTask now_iso) hdue
  · unfold generate_tasks
    rw [if_pos hq]
    exact mem_foldl_gen_step_snd (get_authors_for_crawling rows db_now) now_iso
      a.author_id (List.mem_map_of_mem AuthorRow.author_id hdue)
      (get_authors_for_crawling rows db_now) ([], [])
      (List.ne_nil_of_mem hdue)

/-- C9 witness: a single never-crawled author at queue depth 0. -/
theorem c9_never_crawled_author_one_pending_task_witness :
    ((generate_tasks
        (get_authors_for_crawling
          [{ author_id := 7, author_name := "A", source := "dblp",
             url := "http://dblp/a", last_crawl := none }] 0) 0 "t0").1.countP
        (fun t => decide (t.author_id = some (7 : Int))) = 1) ∧
    mkTask "t0"
        { author_id := 7, author_name := "A", source := "dblp",
          url := "http://dblp/a", last_crawl := none } ∈
      (generate_tasks
        (get_authors_for_crawling
          [{ author_id := 7, author_name := "A", source := "dblp",
             url := "http://dblp/a", last_crawl := none }] 0) 0 "t0").1 ∧
    (mkTask "t0"
        { author_id := 7, author_name := "A", source := "dblp",
          url := "http://dblp/a", last_crawl := none }).retry_count = some 0 ∧
    (mkTask "t0"
        { author_id := 7, author_name := "A", source := "dblp",
          url := "http://dblp/a", last_crawl := none }).status = some "pending" ∧
    (7 : Int) ∈
      (generate_tasks
        (get_authors_for_crawling
          [{ author_id := 7, author_name := "A", source := "dblp",
             url := "http://dblp/a", last_crawl := none }] 0) 0 "t0").2 :=
  c9_never_crawled_author_one_pending_task
    [{ author_id := 7, author_name := "A", source := "dblp",
       url := "http://dblp/a", last_crawl := none }] 0 0 "t0"
    { author_id := 7, author_name := "A", source := "dblp",
      url := "http://dblp/a", last_crawl := none }
    (by decide) (by decide) rfl (by decide)

end BotC
